import Mathlib

/-!
Verification of the pop-up-book site (`src/main.js`) against its
natural-language specification.

JavaScript numbers are modelled as exact rationals (`ℚ`), JS strings as
`String`/`List Char`, exceptions as `Except JsError`, and the DOM state
touched by `switchPage` as an explicit record.  `setTimeout` handles are
modelled as natural-number ids together with the list of timeouts that are
scheduled and not yet cancelled; `clearTimeout` removes a handle from that
list.
-/

/-! ### Transition driver (`animate`, src/main.js lines 733-767) -/

/-- The shared mutable state `bookState = { value, target }`. -/
structure BookState where
  value : ℚ
  target : ℚ
deriving DecidableEq

/-- One per-frame update of the openness value:
`const lerpSpeed = (bookState.target < bookState.value) ? 0.10 : 0.05;`
`bookState.value += (bookState.target - bookState.value) * lerpSpeed;` -/
def stepValue (target value : ℚ) : ℚ :=
  value + (target - value) * (if target < value then 0.10 else 0.05)

/-- The per-frame update applied to the whole `bookState` record; `animate`
never writes `bookState.target`. -/
def stepBook (s : BookState) : BookState :=
  { s with value := stepValue s.target s.value }

/-- `value` after `n` animation frames with a fixed `target`. -/
def iterValue (target : ℚ) : ℕ → ℚ → ℚ
  | 0, v => v
  | n + 1, v => iterValue target n (stepValue target v)

/-- The three per-frame derived values `contentScale`, `bookRotation`
(the spec's `hingeAngle`) and `currentBookScale` (the spec's `bookScale`). -/
structure DerivedFrameParams where
  contentScale : ℚ
  bookRotation : ℚ
  currentBookScale : ℚ
deriving DecidableEq

/-- The three-phase derivation from `bookState.value` in `animate`:
`if (bookState.value > 0.6) { ... } else if (bookState.value > 0.2) { ... }
else { ... }`. -/
def deriveFrameParams (value : ℚ) : DerivedFrameParams :=
  if value > 0.6 then
    { contentScale := (value - 0.6) / 0.4
      bookRotation := 0
      currentBookScale := 1.4 }
  else if value > 0.2 then
    { contentScale := 0
      bookRotation := (1 - (value - 0.2) / 0.4) * 1.57
      currentBookScale := 1.4 }
  else
    { contentScale := 0
      bookRotation := 1.57
      currentBookScale := (value / 0.2) * 1.4 }

/-! ### Navigation controller (`switchPage`, src/main.js lines 186-283) -/

/-- A `.page-section` element: its `id`, whether it carries the `active`
class, whether the section element itself carries `page-transition-enter`,
and whether its first inner `div` carries `page-transition-enter`. -/
structure PageSection where
  id : String
  active : Bool
  enterAnimSelf : Bool
  contentEnterAnim : Bool
deriving DecidableEq

/-- A `.nav-link` element: its `onclick` attribute text and whether it
carries the gold highlight class. -/
structure NavLink where
  onclick : String
  highlighted : Bool
deriving DecidableEq

/-- The DOM state read and written by `switchPage`: the page sections, the
nav links, `#canvas-container.style.opacity`, and the class groups toggled
on `#main-header` (solid styling, `py-6`) and `#nav-container` (glass
styling). -/
structure DomState where
  sections : List PageSection
  links : List NavLink
  canvasOpacity : ℚ
  headerSolid : Bool
  headerPy6 : Bool
  navGlass : Bool
deriving DecidableEq

/-- Whole application state touched by `switchPage` and its timers:
the DOM, `bookState.target`, the `teamBeeTimer` variable (last armed
handle), the multiset of scheduled-and-uncancelled team-bee timeouts, the
scheduled 800 ms canvas-opacity timeouts (the opacity each will write), a
fresh-handle counter, and `teamBeeGroup.visible`. -/
structure AppState where
  dom : DomState
  bookTarget : ℚ
  teamBeeTimer : Option ℕ
  pendingBee : List ℕ
  pendingOpacity : List ℚ
  nextTimerId : ℕ
  teamBeeVisible : Bool
deriving DecidableEq

/-- Helper for JS `String.prototype.includes` on the character list. -/
def jsIncludesAux (pat : List Char) : List Char → Bool
  | [] => pat.isEmpty
  | c :: rest => pat.isPrefixOf (c :: rest) || jsIncludesAux pat rest

/-- JS `s.includes(pat)`. -/
def jsIncludes (s pat : String) : Bool :=
  jsIncludesAux pat.data s.data

/-- Reading whether the first element with the given id carries the
`active` class, as `getElementById(sid).classList.contains` does. -/
def sectionActive (d : DomState) (sid : String) : Bool :=
  ((d.sections.find? (fun s => s.id == sid)).map (fun s => s.active)).getD false

/-- Step 3 of `switchPage`: every section loses `active` and
`page-transition-enter`. -/
def clearSections (ss : List PageSection) : List PageSection :=
  ss.map (fun s => { s with active := false, enterAnimSelf := false })

/-- Step 3 of `switchPage`, activation: the first section whose id matches
gains `active`, and for a non-home target its content container gains
`page-transition-enter`. -/
def activateFirst (targetId : String) (isHome : Bool) : List PageSection → List PageSection
  | [] => []
  | s :: rest =>
    if s.id == targetId then
      { s with active := true
               contentEnterAnim := if isHome then s.contentEnterAnim else true } :: rest
    else
      s :: activateFirst targetId isHome rest

/-- Number of page sections currently carrying the `active` class. -/
def countActive (ss : List PageSection) : ℕ :=
  (ss.filter (fun s => s.active)).length

/-- Step 6 of `switchPage`, first line:
`if (teamBeeTimer) clearTimeout(teamBeeTimer);` — the last armed timeout,
if any, is descheduled (the `teamBeeTimer` variable itself keeps its
value). -/
def clearBeeTimeout (st : AppState) : AppState :=
  match st.teamBeeTimer with
  | some t => { st with pendingBee := st.pendingBee.filter (fun x => x != t) }
  | none => st

/-- Step 1 of `switchPage` (leaving Home): `bookState.target = 0.0;`
followed by the 500 ms pause, which changes no modelled state. -/
def navCloseOnLeave (pageId : String) (st : AppState) : AppState :=
  if sectionActive st.dom "home-page" && !(pageId == "home") then
    { st with bookTarget := 0.0 }
  else st

/-- Step 2 of `switchPage` (entering Home): `bookState.target = 1.0;` and
restore the home chrome (canvas opacity 1, transparent header with
`py-6`, glass nav container). -/
def navEnterHome (pageId : String) (st : AppState) : AppState :=
  if pageId == "home" then
    { st with
        bookTarget := 1.0
        dom := { st.dom with
                   canvasOpacity := 1
                   headerSolid := false
                   headerPy6 := true
                   navGlass := true } }
  else st

/-- Step 3 of `switchPage`: every `.page-section` loses `active` and
`page-transition-enter`, then the resolved target
(`home-page` when entering home, else `pageId`) gains `active` if it
exists. -/
def navSwapSections (pageId : String) (st : AppState) : AppState :=
  let cleared := clearSections st.dom.sections
  let targetId := if pageId == "home" then "home-page" else pageId
  { st with dom := { st.dom with sections := activateFirst targetId (pageId == "home") cleared } }

/-- Step 4 of `switchPage` (non-home): schedule the 800 ms canvas-opacity
write (1 for team, 0.3 otherwise) and apply the solid header / plain nav
chrome. -/
def navNonHomeChrome (pageId : String) (st : AppState) : AppState :=
  if !(pageId == "home") then
    { st with
        pendingOpacity := (if pageId == "team" then (1 : ℚ) else 0.3) :: st.pendingOpacity
        dom := { st.dom with headerSolid := true, headerPy6 := false, navGlass := false } }
  else st

/-- Step 5 of `switchPage`: every nav link loses the highlight class, then
each link whose `onclick` text includes `pageId` gains it. -/
def navHighlightLinks (pageId : String) (st : AppState) : AppState :=
  { st with
      dom := { st.dom with
                 links :=
                   (st.dom.links.map (fun (l : NavLink) => { l with highlighted := false })).map
                     (fun (l : NavLink) =>
                       if jsIncludes l.onclick pageId then
                         { l with highlighted := true }
                       else l) } }

/-- Step 6 of `switchPage`: cancel a pending team-bee timeout, then either
arm a fresh 2000 ms timeout (entering team) or hide the team bees
immediately (leaving / any other page). -/
def navTeamBees (pageId : String) (st : AppState) : AppState :=
  let st := clearBeeTimeout st
  if pageId == "team" then
    { st with
        teamBeeTimer := some st.nextTimerId
        pendingBee := st.nextTimerId :: st.pendingBee
        nextTimerId := st.nextTimerId + 1 }
  else
    { st with teamBeeVisible := false }

/-- The body of `async function switchPage(pageId)`: steps 1-6 in source
order.  The 500 ms pause taken when leaving home changes no modelled
state, so a call is modelled as one atomic state transformation. -/
def switchPage (pageId : String) (st : AppState) : AppState :=
  navTeamBees pageId
    (navHighlightLinks pageId
      (navNonHomeChrome pageId
        (navSwapSections pageId
          (navEnterHome pageId
            (navCloseOnLeave pageId st)))))

/-- A scheduled team-bee timeout elapses: if its handle is still
scheduled, it fires once and runs the callback, which re-checks that the
team section is still active before showing the bees. -/
def fireTeamBeeTimer (tid : ℕ) (st : AppState) : AppState :=
  if st.pendingBee.contains tid then
    if sectionActive st.dom "team" then
      { st with
          pendingBee := st.pendingBee.filter (fun x => x != tid)
          teamBeeVisible := true
          dom := { st.dom with canvasOpacity := 1 } }
    else
      { st with pendingBee := st.pendingBee.filter (fun x => x != tid) }
  else st

/-- A scheduled 800 ms canvas-opacity timeout elapses and writes its
opacity. -/
def fireOpacityTimer (v : ℚ) (st : AppState) : AppState :=
  if st.pendingOpacity.contains v then
    { st with pendingOpacity := st.pendingOpacity.erase v
              dom := { st.dom with canvasOpacity := v } }
  else st

/-- Events the navigation controller can observe: a `switchPage` call or
the elapse of one of the scheduled timeouts. -/
inductive Ev where
  | navigate (pageId : String)
  | beeTimer (tid : ℕ)
  | opacityTimer (v : ℚ)
deriving DecidableEq

/-- Event semantics. -/
def stepEv (st : AppState) (e : Ev) : AppState :=
  match e with
  | .navigate p => switchPage p st
  | .beeTimer tid => fireTeamBeeTimer tid st
  | .opacityTimer v => fireOpacityTimer v st

/-- Run a sequence of events. -/
def runEvents (st : AppState) (evs : List Ev) : AppState :=
  evs.foldl stepEv st

/-- The four page sections of the site, home active. -/
def demoSections : List PageSection :=
  [{ id := "home-page", active := true, enterAnimSelf := false, contentEnterAnim := false },
   { id := "hive", active := false, enterAnimSelf := false, contentEnterAnim := false },
   { id := "species", active := false, enterAnimSelf := false, contentEnterAnim := false },
   { id := "team", active := false, enterAnimSelf := false, contentEnterAnim := false }]

/-- The four nav links, home highlighted. -/
def demoLinks : List NavLink :=
  [{ onclick := "switchPage(home)", highlighted := true },
   { onclick := "switchPage(hive)", highlighted := false },
   { onclick := "switchPage(species)", highlighted := false },
   { onclick := "switchPage(team)", highlighted := false }]

/-- A concrete startup-like application state. -/
def demoState : AppState :=
  { dom := { sections := demoSections
             links := demoLinks
             canvasOpacity := 1
             headerSolid := false
             headerPy6 := true
             navGlass := true }
    bookTarget := 1
    teamBeeTimer := none
    pendingBee := []
    pendingOpacity := []
    nextTimerId := 1
    teamBeeVisible := false }

/-! ### Remote text service client (`callGemini`, src/main.js lines 38-74,
and `generateSpeciesProfile`, lines 108-183) -/

/-- A thrown JS error, reduced to its `message`. -/
structure JsError where
  message : String
deriving DecidableEq

/-- One entry of `parts` in a Gemini response. -/
structure GeminiPart where
  text : String
deriving DecidableEq

/-- The `content` of a candidate. -/
structure GeminiContent where
  parts : List GeminiPart
deriving DecidableEq

/-- One entry of `candidates`. -/
structure GeminiCandidate where
  content : GeminiContent
deriving DecidableEq

/-- The JSON body of a Gemini response. -/
structure GeminiResponse where
  candidates : List GeminiCandidate
deriving DecidableEq

/-- A settled `fetch` response: `ok`, `status`, and the result of
`response.json()` (`none` when the body is not valid JSON, in which case
`await response.json()` throws). -/
structure HttpResponse where
  ok : Bool
  status : Nat
  jsonBody : Option GeminiResponse
deriving DecidableEq

/-- The error string template of the `catch` block in `callGemini`. -/
def connectionErrorMsg (m : String) : String :=
  "連線發生錯誤：" ++ m ++ "。\n請檢查您的 API Key 是否正確。"

/-- The `try` block of `callGemini`: propagate a transport failure, throw
`API Error: <status>` on a non-ok response (after `await response.json()`,
whose own failure propagates instead), and otherwise extract
`data.candidates[0].content.parts[0].text`, where indexing an absent
entry throws a TypeError. -/
def callGeminiTryBlock (fetchResult : Except JsError HttpResponse) : Except JsError String :=
  match fetchResult with
  | .error e => .error e
  | .ok response =>
    if !response.ok then
      match response.jsonBody with
      | none => .error { message := "Unexpected end of JSON input" }
      | some _errData => .error { message := "API Error: " ++ toString response.status }
    else
      match response.jsonBody with
      | none => .error { message := "Unexpected end of JSON input" }
      | some data =>
        match data.candidates with
        | [] => .error { message := "Cannot read properties of undefined" }
        | c :: _ =>
          match c.content.parts with
          | [] => .error { message := "Cannot read properties of undefined" }
          | p :: _ => .ok p.text

/-- `async function callGemini(prompt)`.  `storedKey` is `getApiKey()` at
entry; `keyAfterSetup` is `getApiKey()` after the interactive
`checkApiKey` flow (empty when the user declines); `fetchResult` is the
outcome of the network call.  The result is `Except`-valued so that an
exception escaping to the caller would be visible as `.error`. -/
def callGemini (storedKey keyAfterSetup : String) (fetchResult : Except JsError HttpResponse) :
    Except JsError String :=
  if storedKey = "" ∧ keyAfterSetup = "" then
    pure "請先設定 API Key 才能使用此功能。"
  else
    match callGeminiTryBlock fetchResult with
    | .ok text => .ok text
    | .error error => .ok (connectionErrorMsg error.message)

/-- Replace every (left-to-right, non-overlapping) occurrence of `pat` by
`rep`, continuing after the replaced text, with explicit fuel so the
definition computes by kernel reduction. -/
def replaceAllFuel (pat rep : List Char) : ℕ → List Char → List Char
  | 0, s => s
  | _ + 1, [] => []
  | fuel + 1, c :: rest =>
    if pat.isPrefixOf (c :: rest) then
      rep ++ replaceAllFuel pat rep fuel ((c :: rest).drop pat.length)
    else
      c :: replaceAllFuel pat rep fuel rest

/-- JS `s.replace(/pat/g, rep)` for a literal pattern. -/
def jsReplaceAll (s pat rep : String) : String :=
  ⟨replaceAllFuel pat.data rep.data s.data.length s.data⟩

/-- JS `s.trim()`. -/
def jsTrim (s : String) : String :=
  ⟨((s.data.dropWhile Char.isWhitespace).reverse.dropWhile Char.isWhitespace).reverse⟩

/-- The fence cleanup in `generateSpeciesProfile`: replace every
` ```json ` and every ` ``` ` by the empty string, then trim. -/
def cleanupJsonStr (s : String) : String :=
  jsTrim (jsReplaceAll (jsReplaceAll s "```json" "") "```" "")

/-- The five fields the species-card template reads from the parsed
JSON. -/
structure SpeciesData where
  name : String
  latinName : String
  icon : String
  habitat : String
  description : String
deriving DecidableEq

/-- What `generateSpeciesProfile` writes into `#species-content`: either
the populated card template or the inline red parse-error message. -/
inductive SpeciesContent where
  | profile (data : SpeciesData) (categoryShown : String)
  | parseError (msg : String)
deriving DecidableEq

/-- The structured-mode tail of `generateSpeciesProfile`, from
`let jsonStr = await callGemini(systemPrompt)` on: clean the fences, then
`try { JSON.parse … render } catch { inline error }`.  `JSON.parse` is the
platform's parser, passed in as `jsonParse`; the result is `Except`-valued
so an exception escaping to the caller would be visible as `.error`. -/
def generateSpeciesProfile (responseText : String)
    (jsonParse : String → Except JsError SpeciesData) (randomCategory : String) :
    Except JsError SpeciesContent :=
  match jsonParse (cleanupJsonStr responseText) with
  | .ok data => .ok (.profile data ((randomCategory.splitOn "(").headD ""))
  | .error e =>
    .ok (.parseError ("資料解析錯誤，可能因為 API 回傳格式不符。請再試一次。" ++ e.message))

theorem clearBeeTimeout_dom (st : AppState) : (clearBeeTimeout st).dom = st.dom := by
  rw [clearBeeTimeout]; cases st.teamBeeTimer <;> rfl

theorem clearBeeTimeout_visible (st : AppState) :
    (clearBeeTimeout st).teamBeeVisible = st.teamBeeVisible := by
  rw [clearBeeTimeout]; cases st.teamBeeTimer <;> rfl

theorem clearBeeTimeout_nextTimerId (st : AppState) :
    (clearBeeTimeout st).nextTimerId = st.nextTimerId := by
  rw [clearBeeTimeout]; cases st.teamBeeTimer <;> rfl

theorem clearBeeTimeout_pendingBee_some (st : AppState) (t : ℕ) (hT : st.teamBeeTimer = some t) :
    (clearBeeTimeout st).pendingBee = st.pendingBee.filter (fun x => x != t) := by
  rw [clearBeeTimeout, hT]

theorem navCloseOnLeave_dom (p : String) (st : AppState) :
    (navCloseOnLeave p st).dom = st.dom := by
  rw [navCloseOnLeave]; split_ifs <;> rfl

theorem navCloseOnLeave_teamBeeTimer (p : String) (st : AppState) :
    (navCloseOnLeave p st).teamBeeTimer = st.teamBeeTimer := by
  rw [navCloseOnLeave]; split_ifs <;> rfl

theorem navCloseOnLeave_pendingBee (p : String) (st : AppState) :
    (navCloseOnLeave p st).pendingBee = st.pendingBee := by
  rw [navCloseOnLeave]; split_ifs <;> rfl

theorem navCloseOnLeave_nextTimerId (p : String) (st : AppState) :
    (navCloseOnLeave p st).nextTimerId = st.nextTimerId := by
  rw [navCloseOnLeave]; split_ifs <;> rfl

theorem navEnterHome_sections (p : String) (st : AppState) :
    (navEnterHome p st).dom.sections = st.dom.sections := by
  rw [navEnterHome]; split_ifs <;> rfl

theorem navEnterHome_links (p : String) (st : AppState) :
    (navEnterHome p st).dom.links = st.dom.links := by
  rw [navEnterHome]; split_ifs <;> rfl

theorem navEnterHome_teamBeeTimer (p : String) (st : AppState) :
    (navEnterHome p st).teamBeeTimer = st.teamBeeTimer := by
  rw [navEnterHome]; split_ifs <;> rfl

theorem navEnterHome_pendingBee (p : String) (st : AppState) :
    (navEnterHome p st).pendingBee = st.pendingBee := by
  rw [navEnterHome]; split_ifs <;> rfl

theorem navEnterHome_nextTimerId (p : String) (st : AppState) :
    (navEnterHome p st).nextTimerId = st.nextTimerId := by
  rw [navEnterHome]; split_ifs <;> rfl

theorem navSwapSections_sections (p : String) (st : AppState) :
    (navSwapSections p st).dom.sections =
      activateFirst (if p == "home" then "home-page" else p) (p == "home")
        (clearSections st.dom.sections) := rfl

theorem navSwapSections_links (p : String) (st : AppState) :
    (navSwapSections p st).dom.links = st.dom.links := rfl

theorem navSwapSections_teamBeeTimer (p : String) (st : AppState) :
    (navSwapSections p st).teamBeeTimer = st.teamBeeTimer := rfl

theorem navSwapSections_pendingBee (p : String) (st : AppState) :
    (navSwapSections p st).pendingBee = st.pendingBee := rfl

theorem navSwapSections_nextTimerId (p : String) (st : AppState) :
    (navSwapSections p st).nextTimerId = st.nextTimerId := rfl

theorem navNonHomeChrome_sections (p : String) (st : AppState) :
    (navNonHomeChrome p st).dom.sections = st.dom.sections := by
  rw [navNonHomeChrome]; split_ifs <;> rfl

theorem navNonHomeChrome_links (p : String) (st : AppState) :
    (navNonHomeChrome p st).dom.links = st.dom.links := by
  rw [navNonHomeChrome]; split_ifs <;> rfl

theorem navNonHomeChrome_teamBeeTimer (p : String) (st : AppState) :
    (navNonHomeChrome p st).teamBeeTimer = st.teamBeeTimer := by
  rw [navNonHomeChrome]; split_ifs <;> rfl

theorem navNonHomeChrome_pendingBee (p : String) (st : AppState) :
    (navNonHomeChrome p st).pendingBee = st.pendingBee := by
  rw [navNonHomeChrome]; split_ifs <;> rfl

theorem navNonHomeChrome_nextTimerId (p : String) (st : AppState) :
    (navNonHomeChrome p st).nextTimerId = st.nextTimerId := by
  rw [navNonHomeChrome]; split_ifs <;> rfl

theorem navNonHomeChrome_chrome (p : String) (st : AppState) (h : (p == "home") = false) :
    (navNonHomeChrome p st).dom.headerSolid = true ∧
    (navNonHomeChrome p st).dom.headerPy6 = false ∧
    (navNonHomeChrome p st).dom.navGlass = false := by
  rw [navNonHomeChrome, h]; exact ⟨rfl, rfl, rfl⟩

theorem navHighlightLinks_sections (p : String) (st : AppState) :
    (navHighlightLinks p st).dom.sections = st.dom.sections := rfl

theorem navHighlightLinks_headerSolid (p : String) (st : AppState) :
    (navHighlightLinks p st).dom.headerSolid = st.dom.headerSolid := rfl

theorem navHighlightLinks_headerPy6 (p : String) (st : AppState) :
    (navHighlightLinks p st).dom.headerPy6 = st.dom.headerPy6 := rfl

theorem navHighlightLinks_navGlass (p : String) (st : AppState) :
    (navHighlightLinks p st).dom.navGlass = st.dom.navGlass := rfl

theorem navHighlightLinks_teamBeeTimer (p : String) (st : AppState) :
    (navHighlightLinks p st).teamBeeTimer = st.teamBeeTimer := rfl

theorem navHighlightLinks_pendingBee (p : String) (st : AppState) :
    (navHighlightLinks p st).pendingBee = st.pendingBee := rfl

theorem navHighlightLinks_nextTimerId (p : String) (st : AppState) :
    (navHighlightLinks p st).nextTimerId = st.nextTimerId := rfl

theorem navHighlightLinks_links (p : String) (st : AppState) :
    (navHighlightLinks p st).dom.links =
      (st.dom.links.map (fun (l : NavLink) => { l with highlighted := false })).map
        (fun (l : NavLink) =>
          if jsIncludes l.onclick p then { l with highlighted := true } else l) := rfl

theorem navTeamBees_dom (p : String) (st : AppState) :
    (navTeamBees p st).dom = st.dom := by
  rw [navTeamBees]; split_ifs <;> simp [clearBeeTimeout_dom]

theorem navTeamBees_visible_of_ne (p : String) (st : AppState) (h : (p == "team") = false) :
    (navTeamBees p st).teamBeeVisible = false := by
  rw [navTeamBees, h]; rfl

theorem navTeamBees_arm_teamBeeTimer (st : AppState) :
    (navTeamBees "team" st).teamBeeTimer = some st.nextTimerId := by
  rw [navTeamBees]; simp [clearBeeTimeout_nextTimerId]

theorem navTeamBees_arm_pendingBee (st : AppState) (t : ℕ) (hT : st.teamBeeTimer = some t) :
    (navTeamBees "team" st).pendingBee =
      st.nextTimerId :: st.pendingBee.filter (fun x => x != t) := by
  rw [navTeamBees]
  simp [clearBeeTimeout_nextTimerId, clearBeeTimeout_pendingBee_some st t hT]

theorem navTeamBees_leave_pendingBee (p : String) (st : AppState) (t : ℕ)
    (hT : st.teamBeeTimer = some t) (h : (p == "team") = false) :
    (navTeamBees p st).pendingBee = st.pendingBee.filter (fun x => x != t) := by
  rw [navTeamBees, h]
  simp [clearBeeTimeout_pendingBee_some st t hT]

theorem switchPage_sections (pageId : String) (st : AppState) :
    (switchPage pageId st).dom.sections =
      activateFirst (if pageId == "home" then "home-page" else pageId) (pageId == "home")
        (clearSections st.dom.sections) := by
  rw [switchPage, navTeamBees_dom, navHighlightLinks_sections, navNonHomeChrome_sections,
    navSwapSections_sections, navEnterHome_sections, navCloseOnLeave_dom]

theorem switchPage_links (pageId : String) (st : AppState) :
    (switchPage pageId st).dom.links =
      (st.dom.links.map (fun (l : NavLink) => { l with highlighted := false })).map
        (fun (l : NavLink) =>
          if jsIncludes l.onclick pageId then { l with highlighted := true } else l) := by
  rw [switchPage, navTeamBees_dom, navHighlightLinks_links, navNonHomeChrome_links,
    navSwapSections_links, navEnterHome_links, navCloseOnLeave_dom]

theorem switchPage_chrome_of_ne (pageId : String) (st : AppState) (h : pageId ≠ "home") :
    (switchPage pageId st).dom.headerSolid = true ∧
    (switchPage pageId st).dom.headerPy6 = false ∧
    (switchPage pageId st).dom.navGlass = false := by
  have hb : (pageId == "home") = false := beq_eq_false_iff_ne.mpr h
  refine ⟨?_, ?_, ?_⟩
  · rw [switchPage, navTeamBees_dom, navHighlightLinks_headerSolid]
    exact (navNonHomeChrome_chrome pageId _ hb).1
  · rw [switchPage, navTeamBees_dom, navHighlightLinks_headerPy6]
    exact (navNonHomeChrome_chrome pageId _ hb).2.1
  · rw [switchPage, navTeamBees_dom, navHighlightLinks_navGlass]
    exact (navNonHomeChrome_chrome pageId _ hb).2.2

theorem switchPage_visible_of_ne (pageId : String) (st : AppState) (h : pageId ≠ "team") :
    (switchPage pageId st).teamBeeVisible = false := by
  have hb : (pageId == "team") = false := beq_eq_false_iff_ne.mpr h
  rw [switchPage]
  exact navTeamBees_visible_of_ne pageId _ hb

theorem switchPage_team_arm (st : AppState) :
    (switchPage "team" st).teamBeeTimer = some st.nextTimerId := by
  rw [switchPage, navTeamBees_arm_teamBeeTimer, navHighlightLinks_nextTimerId,
    navNonHomeChrome_nextTimerId, navSwapSections_nextTimerId, navEnterHome_nextTimerId,
    navCloseOnLeave_nextTimerId]

theorem switchPage_team_pending (st : AppState) (t : ℕ) (hT : st.teamBeeTimer = some t) :
    (switchPage "team" st).pendingBee =
      st.nextTimerId :: st.pendingBee.filter (fun x => x != t) := by
  rw [switchPage]
  have hX : (navHighlightLinks "team" (navNonHomeChrome "team" (navSwapSections "team"
      (navEnterHome "team" (navCloseOnLeave "team" st))))).teamBeeTimer = some t := by
    rw [navHighlightLinks_teamBeeTimer, navNonHomeChrome_teamBeeTimer,
      navSwapSections_teamBeeTimer, navEnterHome_teamBeeTimer, navCloseOnLeave_teamBeeTimer, hT]
  rw [navTeamBees_arm_pendingBee _ t hX, navHighlightLinks_nextTimerId,
    navNonHomeChrome_nextTimerId, navSwapSections_nextTimerId, navEnterHome_nextTimerId,
    navCloseOnLeave_nextTimerId, navHighlightLinks_pendingBee, navNonHomeChrome_pendingBee,
    navSwapSections_pendingBee, navEnterHome_pendingBee, navCloseOnLeave_pendingBee]

theorem switchPage_leave_pending (pageId : String) (st : AppState) (t : ℕ)
    (hT : st.teamBeeTimer = some t) (h : pageId ≠ "team") :
    (switchPage pageId st).pendingBee = st.pendingBee.filter (fun x => x != t) := by
  have hb : (pageId == "team") = false := beq_eq_false_iff_ne.mpr h
  rw [switchPage]
  have hX : (navHighlightLinks pageId (navNonHomeChrome pageId (navSwapSections pageId
      (navEnterHome pageId (navCloseOnLeave pageId st))))).teamBeeTimer = some t := by
    rw [navHighlightLinks_teamBeeTimer, navNonHomeChrome_teamBeeTimer,
      navSwapSections_teamBeeTimer, navEnterHome_teamBeeTimer, navCloseOnLeave_teamBeeTimer, hT]
  rw [navTeamBees_leave_pendingBee pageId _ t hX hb, navHighlightLinks_pendingBee,
    navNonHomeChrome_pendingBee, navSwapSections_pendingBee, navEnterHome_pendingBee,
    navCloseOnLeave_pendingBee]

theorem mem_clearSections_inactive (s : PageSection) (ss : List PageSection)
    (h : s ∈ clearSections ss) : s.active = false := by
  rw [clearSections] at h
  obtain ⟨a, -, rfl⟩ := List.mem_map.1 h
  rfl

theorem clearSections_map_id (ss : List PageSection) :
    (clearSections ss).map PageSection.id = ss.map PageSection.id := by
  rw [clearSections, List.map_map]
  rfl

theorem countActive_zero (ss : List PageSection) (h : ∀ s ∈ ss, s.active = false) :
    countActive ss = 0 := by
  induction ss with
  | nil => rfl
  | cons hd tl ihh =>
    rw [countActive, List.filter_cons, if_neg (by simp [h hd (List.mem_cons_self hd tl)])]
    exact ihh (fun s hs => h s (List.mem_cons_of_mem hd hs))

theorem countActive_activateFirst (tid : String) (ihm : Bool) :
    ∀ ss : List PageSection, (∀ s ∈ ss, s.active = false) →
      tid ∈ ss.map PageSection.id → countActive (activateFirst tid ihm ss) = 1 := by
  intro ss
  induction ss with
  | nil => intro _ hmem; simp at hmem
  | cons hd tl ihh =>
    intro hall hmem
    by_cases hid : (hd.id == tid) = true
    · rw [activateFirst, if_pos hid, countActive, List.filter_cons, if_pos (by simp)]
      have h0 : countActive tl = 0 :=
        countActive_zero tl (fun s hs => hall s (List.mem_cons_of_mem hd hs))
      rw [countActive] at h0
      simp [h0]
    · rw [activateFirst, if_neg hid, countActive, List.filter_cons,
        if_neg (by simp [hall hd (List.mem_cons_self hd tl)])]
      have hmem' : tid ∈ tl.map PageSection.id := by
        rcases List.mem_map.1 hmem with ⟨a, ha, rfl⟩
        rcases List.mem_cons.1 ha with rfl | ha'
        · exact absurd (show (a.id == a.id) = true by simp) hid
        · exact List.mem_map_of_mem PageSection.id ha'
      exact ihh (fun s hs => hall s (List.mem_cons_of_mem hd hs)) hmem'

theorem active_mem_activateFirst (tid : String) (ihm : Bool) :
    ∀ ss : List PageSection, (∀ s ∈ ss, s.active = false) →
      ∀ s ∈ activateFirst tid ihm ss, s.active = true → s.id = tid := by
  intro ss
  induction ss with
  | nil => intro _ s hs; simp [activateFirst] at hs
  | cons hd tl ihh =>
    intro hall s hs hact
    by_cases hid : (hd.id == tid) = true
    · rw [activateFirst, if_pos hid] at hs
      rcases List.mem_cons.1 hs with rfl | hs'
      · simpa using hid
      · exact absurd hact (by simp [hall s (List.mem_cons_of_mem hd hs')])
    · rw [activateFirst, if_neg hid] at hs
      rcases List.mem_cons.1 hs with rfl | hs'
      · exact absurd hact (by simp [hall s (List.mem_cons_self s tl)])
      · exact ihh (fun x hx => hall x (List.mem_cons_of_mem hd hx)) s hs' hact

theorem sectionActive_false_of_all (d : DomState) (sid : String)
    (h : ∀ s ∈ d.sections, s.id = sid → s.active = false) : sectionActive d sid = false := by
  rw [sectionActive]
  cases hf : d.sections.find? (fun s => s.id == sid) with
  | none => rfl
  | some s =>
    have hmem := List.mem_of_find?_eq_some hf
    have hpred := List.find?_some hf
    simp [h s hmem (by simpa using hpred)]

theorem switchPage_team_inactive (pageId : String) (st : AppState) (h : pageId ≠ "team") :
    sectionActive (switchPage pageId st).dom "team" = false := by
  apply sectionActive_false_of_all
  intro s hs hid
  rw [switchPage_sections] at hs
  by_contra hact
  have hact' : s.active = true := by simpa using hact
  have hmain := active_mem_activateFirst _ _ _
    (fun x hx => mem_clearSections_inactive x _ hx) s hs hact'
  rw [hid] at hmain
  by_cases hh : (pageId == "home") = true
  · rw [if_pos hh] at hmain
    exact absurd hmain (by decide)
  · rw [if_neg hh] at hmain
    exact h hmain.symm

theorem sectionActive_congr (d d' : DomState) (sid : String) (h : d.sections = d'.sections) :
    sectionActive d sid = sectionActive d' sid := by
  rw [sectionActive, sectionActive, h]

theorem fireTeamBeeTimer_sections (tid : ℕ) (st : AppState) :
    (fireTeamBeeTimer tid st).dom.sections = st.dom.sections := by
  rw [fireTeamBeeTimer]; split_ifs <;> rfl

theorem fireTeamBeeTimer_visible_of_inactive (tid : ℕ) (st : AppState)
    (h : sectionActive st.dom "team" = false) :
    (fireTeamBeeTimer tid st).teamBeeVisible = st.teamBeeVisible := by
  rw [fireTeamBeeTimer]
  split_ifs with h1 h2
  · exact absurd h2 (by simp [h])
  · rfl
  · rfl

theorem fireOpacityTimer_sections (v : ℚ) (st : AppState) :
    (fireOpacityTimer v st).dom.sections = st.dom.sections := by
  rw [fireOpacityTimer]; split_ifs <;> rfl

theorem fireOpacityTimer_visible (v : ℚ) (st : AppState) :
    (fireOpacityTimer v st).teamBeeVisible = st.teamBeeVisible := by
  rw [fireOpacityTimer]; split_ifs <;> rfl

theorem stepEv_preserves_bee_off (st : AppState) (e : Ev) (he : e ≠ Ev.navigate "team")
    (h1 : sectionActive st.dom "team" = false) (h2 : st.teamBeeVisible = false) :
    sectionActive (stepEv st e).dom "team" = false ∧ (stepEv st e).teamBeeVisible = false := by
  cases e with
  | navigate p =>
    have hp : p ≠ "team" := fun hh => he (by rw [hh])
    exact ⟨switchPage_team_inactive p st hp, switchPage_visible_of_ne p st hp⟩
  | beeTimer tid =>
    refine ⟨?_, ?_⟩
    · show sectionActive (fireTeamBeeTimer tid st).dom "team" = false
      rw [sectionActive_congr (fireTeamBeeTimer tid st).dom st.dom "team"
        (fireTeamBeeTimer_sections tid st)]
      exact h1
    · show (fireTeamBeeTimer tid st).teamBeeVisible = false
      rw [fireTeamBeeTimer_visible_of_inactive tid st h1]
      exact h2
  | opacityTimer v =>
    refine ⟨?_, ?_⟩
    · show sectionActive (fireOpacityTimer v st).dom "team" = false
      rw [sectionActive_congr (fireOpacityTimer v st).dom st.dom "team"
        (fireOpacityTimer_sections v st)]
      exact h1
    · show (fireOpacityTimer v st).teamBeeVisible = false
      rw [fireOpacityTimer_visible v st]
      exact h2

theorem runEvents_bee_off (evs : List Ev) :
    ∀ st : AppState, (∀ e ∈ evs, e ≠ Ev.navigate "team") →
      sectionActive st.dom "team" = false → st.teamBeeVisible = false →
      (runEvents st evs).teamBeeVisible = false := by
  induction evs with
  | nil => intro st _ _ h2; exact h2
  | cons e rest ihh =>
    intro st hall h1 h2
    have hstep := stepEv_preserves_bee_off st e (hall e (List.mem_cons_self e rest)) h1 h2
    have : runEvents st (e :: rest) = runEvents (stepEv st e) rest := rfl
    rw [this]
    exact ihh (stepEv st e) (fun x hx => hall x (List.mem_cons_of_mem e hx)) hstep.1 hstep.2

theorem not_mem_filter_self (l : List ℕ) (a : ℕ) : a ∉ l.filter (fun x => x != a) := by
  intro h
  have := List.of_mem_filter h
  simp at this

theorem activateFirst_no_match (tid : String) (ihm : Bool) :
    ∀ ss : List PageSection, (∀ s ∈ ss, (s.id == tid) = false) →
      activateFirst tid ihm ss = ss := by
  intro ss
  induction ss with
  | nil => intro _; rfl
  | cons hd tl ihh =>
    intro h
    rw [activateFirst, if_neg (by simp [h hd (List.mem_cons_self hd tl)]),
      ihh (fun s hs => h s (List.mem_cons_of_mem hd hs))]

/-- C6 (amended): when the resolved target id names one of the page
sections, exactly one section is active after `switchPage`. -/
theorem spec_unique_active_amended (pageId : String) (st : AppState)
    (h : (if pageId == "home" then "home-page" else pageId) ∈
      st.dom.sections.map PageSection.id) :
    countActive (switchPage pageId st).dom.sections = 1 := by
  rw [switchPage_sections]
  apply countActive_activateFirst
  · intro s hs
    exact mem_clearSections_inactive s _ hs
  · rw [clearSections_map_id]
    exact h

/-- C6 counterexample: a `pageId` matching no page section leaves zero
sections active. -/
theorem spec_unique_active_counterexample :
    countActive (switchPage "bogus" demoState).dom.sections ≠ 1 := by
  rw [switchPage_sections]
  decide

/-- C7 counterexample: with the home page active, `switchPage` on an
unmatched `pageId` changes the visibility state, the header styling and
the nav highlights. -/
theorem spec_silent_noop_counterexample :
    (switchPage "bogus" demoState).dom.sections ≠ demoState.dom.sections ∧
    (switchPage "bogus" demoState).dom.headerSolid ≠ demoState.dom.headerSolid ∧
    (switchPage "bogus" demoState).dom.links ≠ demoState.dom.links := by
  refine ⟨?_, ?_, ?_⟩
  · rw [switchPage_sections]; decide
  · rw [(switchPage_chrome_of_ne "bogus" demoState (by decide)).1]; decide
  · rw [switchPage_links]; decide

/-- C7 (amended): `switchPage` on an unmatched non-home `pageId` cannot
fail, but it is not a no-op: every section is deactivated, the non-home
header chrome is applied, and each link highlight is recomputed from the
unmatched id (so all previously highlighted links whose `onclick` does
not mention it lose their highlight). -/
theorem spec_malformed_pageId_amended (pageId : String) (st : AppState)
    (hnh : pageId ≠ "home") (hnm : ∀ s ∈ st.dom.sections, s.id ≠ pageId) :
    (∀ s ∈ (switchPage pageId st).dom.sections, s.active = false) ∧
    (switchPage pageId st).dom.headerSolid = true ∧
    (switchPage pageId st).dom.headerPy6 = false ∧
    (switchPage pageId st).dom.navGlass = false ∧
    (∀ l ∈ (switchPage pageId st).dom.links, l.highlighted = jsIncludes l.onclick pageId) := by
  obtain ⟨hh1, hh2, hh3⟩ := switchPage_chrome_of_ne pageId st hnh
  refine ⟨?_, hh1, hh2, hh3, ?_⟩
  · intro s hs
    have hb : (pageId == "home") = false := beq_eq_false_iff_ne.mpr hnh
    rw [switchPage_sections] at hs
    simp only [hb, Bool.false_eq_true, if_false] at hs
    have hnm2 : ∀ x ∈ clearSections st.dom.sections, (x.id == pageId) = false := by
      intro x hx
      rw [clearSections] at hx
      obtain ⟨a, ha, rfl⟩ := List.mem_map.1 hx
      simpa using hnm a ha
    rw [activateFirst_no_match pageId false (clearSections st.dom.sections) hnm2] at hs
    exact mem_clearSections_inactive s _ hs
  · intro l hl
    rw [switchPage_links] at hl
    obtain ⟨l0, hl0, rfl⟩ := List.mem_map.1 hl
    obtain ⟨a, _, rfl⟩ := List.mem_map.1 hl0
    by_cases hj : jsIncludes a.onclick pageId = true
    · simp [hj]
    · simp [hj]

/-- C8: entering team and leaving again before the 2 s timeout fires
cancels the pending activation, hides the bees at once, and no later
timeout can ever show them as long as team is not re-entered. -/
theorem spec_team_bees_cancel (st0 : AppState) (pid : String) (hpid : pid ≠ "team")
    (evs : List Ev) (hevs : ∀ e ∈ evs, e ≠ Ev.navigate "team") :
    (∀ t, st0.teamBeeTimer = some t →
       (switchPage "team" st0).pendingBee =
         st0.nextTimerId :: st0.pendingBee.filter (fun x => x != t)) ∧
    (switchPage "team" st0).teamBeeTimer = some st0.nextTimerId ∧
    st0.nextTimerId ∉ (switchPage pid (switchPage "team" st0)).pendingBee ∧
    (switchPage pid (switchPage "team" st0)).teamBeeVisible = false ∧
    (runEvents (switchPage pid (switchPage "team" st0)) evs).teamBeeVisible = false := by
  refine ⟨?_, switchPage_team_arm st0, ?_, switchPage_visible_of_ne pid _ hpid, ?_⟩
  · intro t hT
    exact switchPage_team_pending st0 t hT
  · rw [switchPage_leave_pending pid _ st0.nextTimerId (switchPage_team_arm st0) hpid]
    exact not_mem_filter_self _ _
  · exact runEvents_bee_off evs _ hevs (switchPage_team_inactive pid _ hpid)
      (switchPage_visible_of_ne pid _ hpid)

/-- C2: each frame advances `value` by `(target − value) × rate` with
`rate = 0.10` when closing (`target < value`) and `0.05` otherwise, and
leaves `target` unchanged. -/
theorem spec_update_rule (s : BookState) :
    (stepBook s).target = s.target ∧
    (stepBook s).value =
      s.value + (s.target - s.value) * (if s.target < s.value then 0.10 else 0.05) :=
  ⟨rfl, rfl⟩

/-- C1: on `[0,1]` the derivation is exactly the three-phase piecewise
mapping of the spec (`bookRotation` is the spec's `hingeAngle`,
`currentBookScale` its `bookScale`). -/
theorem spec_phase_mapping (v : ℚ) (_h0 : 0 ≤ v) (_h1 : v ≤ 1) :
    (0.6 < v → deriveFrameParams v =
      { contentScale := (v - 0.6) / 0.4, bookRotation := 0, currentBookScale := 1.4 }) ∧
    (0.2 < v → v ≤ 0.6 → deriveFrameParams v =
      { contentScale := 0, bookRotation := (1 - (v - 0.2) / 0.4) * 1.57,
        currentBookScale := 1.4 }) ∧
    (v ≤ 0.2 → deriveFrameParams v =
      { contentScale := 0, bookRotation := 1.57, currentBookScale := (v / 0.2) * 1.4 }) := by
  refine ⟨fun h => ?_, fun h2 h3 => ?_, fun h4 => ?_⟩
  · rw [deriveFrameParams, if_pos (show v > 0.6 from h)]
  · rw [deriveFrameParams, if_neg (show ¬ v > 0.6 from by linarith),
      if_pos (show v > 0.2 from h2)]
  · rw [deriveFrameParams, if_neg (show ¬ v > 0.6 from by linarith),
      if_neg (show ¬ v > 0.2 from by linarith)]

/-- C1 witness: the theorem applied at `value = 0.9`. -/
theorem spec_phase_mapping_witness :
    0 ≤ (0.9 : ℚ) ∧ (0.9 : ℚ) ≤ 1 ∧ deriveFrameParams 0.9 =
      { contentScale := ((0.9 : ℚ) - 0.6) / 0.4, bookRotation := 0, currentBookScale := 1.4 } :=
  ⟨by norm_num, by norm_num,
    (spec_phase_mapping 0.9 (by norm_num) (by norm_num)).1 (by norm_num)⟩

theorem abs_max_sub_max_le (c a b : ℚ) : |max c a - max c b| ≤ |a - b| := by
  simpa [max_comm] using abs_max_sub_max_le_abs a b c

theorem abs_min_sub_min_le (c a b : ℚ) : |min c a - min c b| ≤ |a - b| := by
  simpa using abs_min_sub_min_le_max c a c b

theorem contentScale_eq_max (v : ℚ) :
    (deriveFrameParams v).contentScale = max 0 ((v - 0.6) / 0.4) := by
  rw [deriveFrameParams]
  split_ifs with h1 h2
  · rw [max_eq_right (div_nonneg (by linarith) (by norm_num))]
  · have h : (v - 0.6) / 0.4 ≤ 0 := by
      rw [show (v - 0.6) / 0.4 = 5/2 * v - 3/2 from by ring]
      linarith
    rw [max_eq_left h]
  · have h : (v - 0.6) / 0.4 ≤ 0 := by
      rw [show (v - 0.6) / 0.4 = 5/2 * v - 3/2 from by ring]
      linarith
    rw [max_eq_left h]

theorem bookRotation_eq_clamp (v : ℚ) :
    (deriveFrameParams v).bookRotation = min 1.57 (max 0 ((1 - (v - 0.2) / 0.4) * 1.57)) := by
  have hX : (1 - (v - 0.2) / 0.4) * 1.57 = 471/200 - 157/40 * v := by ring
  rw [deriveFrameParams]
  split_ifs with h1 h2
  · rw [hX, max_eq_left (by linarith), min_eq_right (by norm_num)]
  · rw [max_eq_right (by rw [hX]; linarith), min_eq_right (by rw [hX]; linarith)]
  · rw [max_eq_right (by rw [hX]; linarith), min_eq_left (by rw [hX]; linarith)]

theorem currentBookScale_eq_min (v : ℚ) :
    (deriveFrameParams v).currentBookScale = min 1.4 ((v / 0.2) * 1.4) := by
  have hY : (v / 0.2) * 1.4 = 7 * v := by ring
  rw [deriveFrameParams]
  split_ifs with h1 h2
  · rw [min_eq_left (by rw [hY]; linarith)]
  · rw [min_eq_left (by rw [hY]; linarith)]
  · rw [min_eq_right (by rw [hY]; linarith)]

/-- C3: each derived parameter is Lipschitz in `value` on `[0,1]` (slopes
5/2, 157/40 and 7), hence continuous — in particular there is no jump at
the phase boundaries 0.6 and 0.2. -/
theorem spec_derived_continuous (v w : ℚ) (_hv : 0 ≤ v ∧ v ≤ 1) (_hw : 0 ≤ w ∧ w ≤ 1) :
    |(deriveFrameParams v).contentScale - (deriveFrameParams w).contentScale|
        ≤ 5/2 * |v - w| ∧
    |(deriveFrameParams v).bookRotation - (deriveFrameParams w).bookRotation|
        ≤ 157/40 * |v - w| ∧
    |(deriveFrameParams v).currentBookScale - (deriveFrameParams w).currentBookScale|
        ≤ 7 * |v - w| := by
  refine ⟨?_, ?_, ?_⟩
  · rw [contentScale_eq_max, contentScale_eq_max]
    calc |max 0 ((v - 0.6) / 0.4) - max 0 ((w - 0.6) / 0.4)|
        ≤ |(v - 0.6) / 0.4 - (w - 0.6) / 0.4| := abs_max_sub_max_le _ _ _
      _ = 5/2 * |v - w| := by
          rw [show (v - 0.6) / 0.4 - (w - 0.6) / 0.4 = 5/2 * (v - w) from by ring, abs_mul,
            abs_of_pos (show (0:ℚ) < 5/2 from by norm_num)]
  · rw [bookRotation_eq_clamp, bookRotation_eq_clamp]
    calc |min 1.57 (max 0 ((1 - (v - 0.2) / 0.4) * 1.57))
          - min 1.57 (max 0 ((1 - (w - 0.2) / 0.4) * 1.57))|
        ≤ |max 0 ((1 - (v - 0.2) / 0.4) * 1.57) - max 0 ((1 - (w - 0.2) / 0.4) * 1.57)| :=
          abs_min_sub_min_le _ _ _
      _ ≤ |(1 - (v - 0.2) / 0.4) * 1.57 - (1 - (w - 0.2) / 0.4) * 1.57| :=
          abs_max_sub_max_le _ _ _
      _ = 157/40 * |v - w| := by
          rw [show (1 - (v - 0.2) / 0.4) * 1.57 - (1 - (w - 0.2) / 0.4) * 1.57
              = 157/40 * (w - v) from by ring, abs_mul,
            abs_of_pos (show (0:ℚ) < 157/40 from by norm_num), abs_sub_comm]
  · rw [currentBookScale_eq_min, currentBookScale_eq_min]
    calc |min 1.4 ((v / 0.2) * 1.4) - min 1.4 ((w / 0.2) * 1.4)|
        ≤ |(v / 0.2) * 1.4 - (w / 0.2) * 1.4| := abs_min_sub_min_le _ _ _
      _ = 7 * |v - w| := by
          rw [show (v / 0.2) * 1.4 - (w / 0.2) * 1.4 = 7 * (v - w) from by ring, abs_mul,
            abs_of_pos (show (0:ℚ) < 7 from by norm_num)]

/-- C3 witness: the theorem applied across the 0.6 boundary at
`v = 0.5`, `w = 0.7`. -/
theorem spec_derived_continuous_witness :
    (0 ≤ (0.5 : ℚ) ∧ (0.5 : ℚ) ≤ 1) ∧ (0 ≤ (0.7 : ℚ) ∧ (0.7 : ℚ) ≤ 1) ∧
    |(deriveFrameParams 0.5).contentScale - (deriveFrameParams 0.7).contentScale|
      ≤ 5/2 * |(0.5 : ℚ) - 0.7| :=
  ⟨⟨by norm_num, by norm_num⟩, ⟨by norm_num, by norm_num⟩,
    (spec_derived_continuous 0.5 0.7 ⟨by norm_num, by norm_num⟩
      ⟨by norm_num, by norm_num⟩).1⟩

theorem stepValue_open (v : ℚ) (h : v ≤ 1) : 1 - stepValue 1 v = (19/20) * (1 - v) := by
  rw [stepValue, if_neg (by linarith : ¬ ((1:ℚ) < v))]; ring

theorem iterValue_open (n : ℕ) :
    ∀ v : ℚ, v ≤ 1 → 1 - iterValue 1 n v = (19/20)^n * (1 - v) := by
  induction n with
  | zero => intro v _; simp [iterValue]
  | succ n ih =>
    intro v hv
    have hstep : stepValue 1 v ≤ 1 := by
      have ha := stepValue_open v hv
      have hb : (0:ℚ) ≤ (19/20) * (1 - v) := by
        have : (0:ℚ) ≤ 1 - v := by linarith
        positivity
      linarith
    rw [iterValue, ih (stepValue 1 v) hstep, stepValue_open v hv]
    ring

/-- C4 counterexample: opening from `value = 0` toward `target = 1`,
after exactly 200 steps the distance is `(19/20)^200 ≈ 3.5e-5`, not below
`1e-6`. -/
theorem spec_convergence_counterexample :
    ¬ (|iterValue 1 200 0 - 1| < 1/1000000) := by
  have h := iterValue_open 200 0 (by norm_num)
  rw [sub_zero] at h
  have h2 : iterValue 1 200 0 - 1 = -(((19:ℚ)/20)^200) := by linarith
  rw [h2, abs_neg, abs_of_nonneg (by positivity)]
  norm_num

theorem stepValue_contract (t v : ℚ) : |stepValue t v - t| ≤ (19/20) * |v - t| := by
  rw [stepValue]
  split_ifs with h
  · rw [show v + (t - v) * 0.10 - t = (9/10) * (v - t) from by ring, abs_mul,
      abs_of_pos (show (0:ℚ) < 9/10 from by norm_num)]
    have := abs_nonneg (v - t)
    linarith
  · rw [show v + (t - v) * 0.05 - t = (19/20) * (v - t) from by ring, abs_mul,
      abs_of_pos (show (0:ℚ) < 19/20 from by norm_num)]

theorem iterValue_dist (t : ℚ) (n : ℕ) :
    ∀ v : ℚ, |iterValue t n v - t| ≤ (19/20)^n * |v - t| := by
  induction n with
  | zero => intro v; simp [iterValue]
  | succ n ih =>
    intro v
    calc |iterValue t (n + 1) v - t| = |iterValue t n (stepValue t v) - t| := by rw [iterValue]
      _ ≤ (19/20)^n * |stepValue t v - t| := ih _
      _ ≤ (19/20)^n * ((19/20) * |v - t|) :=
          mul_le_mul_of_nonneg_left (stepValue_contract t v) (by positivity)
      _ = (19/20)^(n + 1) * |v - t| := by ring

/-- C4 (amended): from any `value ∈ [0,1]` toward any `target ∈ {0,1}`,
at least 270 smoothing steps (rather than 200) bring the distance below
`1e-6`. -/
theorem spec_convergence_amended (v t : ℚ) (hv0 : 0 ≤ v) (hv1 : v ≤ 1)
    (ht : t = 0 ∨ t = 1) (n : ℕ) (hn : 270 ≤ n) :
    |iterValue t n v - t| < 1/1000000 := by
  have hd : |v - t| ≤ 1 := by
    rcases ht with rfl | rfl
    · rw [sub_zero, abs_of_nonneg hv0]; exact hv1
    · rw [abs_sub_comm, abs_of_nonneg (by linarith)]; linarith
  have h1 := iterValue_dist t n v
  have hp : (0:ℚ) ≤ (19/20)^n := by positivity
  have h2 : ((19:ℚ)/20)^n * |v - t| ≤ (19/20)^n * 1 := mul_le_mul_of_nonneg_left hd hp
  have h3 : ((19:ℚ)/20)^n ≤ (19/20)^270 :=
    pow_le_pow_of_le_one (by norm_num) (by norm_num) hn
  have h4 : ((19:ℚ)/20)^270 < 1/1000000 := by norm_num
  linarith

/-- C4 witness: the amended theorem applied to closing from 1 with 270
steps. -/
theorem spec_convergence_amended_witness :
    0 ≤ (1:ℚ) ∧ (1:ℚ) ≤ 1 ∧ ((0:ℚ) = 0 ∨ (0:ℚ) = 1) ∧ 270 ≤ 270 ∧
    |iterValue 0 270 1 - 0| < 1/1000000 :=
  ⟨by norm_num, le_refl 1, Or.inl rfl, le_refl 270,
    spec_convergence_amended 1 0 (by norm_num) le_rfl (Or.inl rfl) 270 le_rfl⟩

theorem closing_reaches_half : ∃ n : ℕ, iterValue 0 n 1 < 0.5 :=
  ⟨7, by norm_num [iterValue, stepValue]⟩

theorem opening_reaches_half : ∃ n : ℕ, iterValue 1 n 0 > 0.5 :=
  ⟨14, by norm_num [iterValue, stepValue]⟩

/-- C5: closing from 1 crosses 0.5 in strictly fewer steps (7) than
opening from 0 does (14). -/
theorem spec_close_faster_than_open :
    Nat.find closing_reaches_half < Nat.find opening_reaches_half ∧
    iterValue 0 (Nat.find closing_reaches_half) 1 < 0.5 ∧
    iterValue 1 (Nat.find opening_reaches_half) 0 > 0.5 := by
  refine ⟨?_, Nat.find_spec closing_reaches_half, Nat.find_spec opening_reaches_half⟩
  have hc : Nat.find closing_reaches_half ≤ 7 :=
    Nat.find_le (by norm_num [iterValue, stepValue])
  have ho : 13 < Nat.find opening_reaches_half :=
    (Nat.lt_find_iff opening_reaches_half 13).2 (by
      intro m hm
      interval_cases m <;> norm_num [iterValue, stepValue])
  omega

/-- C6 witness: the amended theorem applied to a matched page id. -/
theorem spec_unique_active_amended_witness :
    ((if ("hive" : String) == "home" then "home-page" else "hive") ∈
      demoState.dom.sections.map PageSection.id) ∧
    countActive (switchPage "hive" demoState).dom.sections = 1 :=
  ⟨by decide, spec_unique_active_amended "hive" demoState (by decide)⟩

/-- C7 witness: the amended theorem applied to the unmatched id `bogus`. -/
theorem spec_malformed_pageId_amended_witness :
    ("bogus" ≠ "home") ∧ (switchPage "bogus" demoState).dom.headerSolid = true :=
  ⟨by decide,
    (spec_malformed_pageId_amended "bogus" demoState (by decide) (by decide)).2.1⟩

/-- C8 witness: the theorem applied to `team` entered from the demo state
and left for `hive`, with one stale timeout elapsing afterwards. -/
theorem spec_team_bees_cancel_witness :
    ("hive" ≠ "team") ∧
    (∀ e ∈ [Ev.beeTimer 1], e ≠ Ev.navigate "team") ∧
    (runEvents (switchPage "hive" (switchPage "team" demoState)) [Ev.beeTimer 1]).teamBeeVisible
      = false :=
  ⟨by decide, by decide,
    (spec_team_bees_cancel demoState "hive" (by decide) [Ev.beeTimer 1] (by decide)).2.2.2.2⟩

/-- C9: `callGemini` always returns an `.ok` string — on a transport
failure or a non-2xx response it is the localized connection-error
message rather than a raised exception. -/
theorem spec_callGemini_total (storedKey keyAfterSetup : String)
    (fetchResult : Except JsError HttpResponse) :
    (∃ s, callGemini storedKey keyAfterSetup fetchResult = Except.ok s) ∧
    (storedKey ≠ "" → ∀ e, fetchResult = Except.error e →
       callGemini storedKey keyAfterSetup fetchResult =
         Except.ok (connectionErrorMsg e.message)) ∧
    (storedKey ≠ "" → ∀ resp, fetchResult = Except.ok resp → resp.ok = false →
       ∃ m, callGemini storedKey keyAfterSetup fetchResult =
         Except.ok (connectionErrorMsg m)) := by
  refine ⟨?_, ?_, ?_⟩
  · rw [callGemini]
    split_ifs with h
    · exact ⟨_, rfl⟩
    · cases htb : callGeminiTryBlock fetchResult with
      | ok t => exact ⟨t, rfl⟩
      | error e => exact ⟨connectionErrorMsg e.message, rfl⟩
  · intro hk e hfe
    have hcond : ¬(storedKey = "" ∧ keyAfterSetup = "") := fun hc => hk hc.1
    rw [callGemini, if_neg hcond, hfe]
    rfl
  · intro hk resp hfr hok
    have hcond : ¬(storedKey = "" ∧ keyAfterSetup = "") := fun hc => hk hc.1
    cases hb : resp.jsonBody with
    | none =>
      exact ⟨"Unexpected end of JSON input", by
        rw [callGemini, if_neg hcond, hfr]
        simp only [callGeminiTryBlock, hok, hb, Bool.not_false, if_pos]⟩
    | some d =>
      exact ⟨"API Error: " ++ toString resp.status, by
        rw [callGemini, if_neg hcond, hfr]
        simp only [callGeminiTryBlock, hok, hb, Bool.not_false, if_pos]⟩

/-- C9 witness: the theorem applied to a transport failure with a key
set. -/
theorem spec_callGemini_total_witness :
    ("k" ≠ "") ∧
    callGemini "k" "" (Except.error { message := "Failed to fetch" }) =
      Except.ok (connectionErrorMsg "Failed to fetch") :=
  ⟨by decide,
    (spec_callGemini_total "k" "" (Except.error { message := "Failed to fetch" })).2.1
      (by decide) { message := "Failed to fetch" } rfl⟩

/-- C10: structured mode never lets a parse failure escape — the result
is always `.ok`, a parser error becomes the inline error message, a
parsed object populates the card — and the fence cleanup strips a
` ```json … ``` ` wrapper down to the enclosed JSON text. -/
theorem spec_species_parse (responseText : String)
    (jsonParse : String → Except JsError SpeciesData) (randomCategory : String) :
    (∃ r, generateSpeciesProfile responseText jsonParse randomCategory = Except.ok r) ∧
    (∀ e, jsonParse (cleanupJsonStr responseText) = Except.error e →
       generateSpeciesProfile responseText jsonParse randomCategory =
         Except.ok (SpeciesContent.parseError
           ("資料解析錯誤，可能因為 API 回傳格式不符。請再試一次。" ++ e.message))) ∧
    (∀ d, jsonParse (cleanupJsonStr responseText) = Except.ok d →
       generateSpeciesProfile responseText jsonParse randomCategory =
         Except.ok (SpeciesContent.profile d ((randomCategory.splitOn "(").headD ""))) ∧
    cleanupJsonStr "```json\n\x7b\"name\":\"X\"\x7d\n```" = "\x7b\"name\":\"X\"\x7d" := by
  refine ⟨?_, ?_, ?_, by decide⟩
  · cases hp : jsonParse (cleanupJsonStr responseText) with
    | ok d => exact ⟨_, by rw [generateSpeciesProfile, hp]⟩
    | error e => exact ⟨_, by rw [generateSpeciesProfile, hp]⟩
  · intro e hp
    rw [generateSpeciesProfile, hp]
  · intro d hp
    rw [generateSpeciesProfile, hp]

/-- C10 witness: the theorem applied to a non-JSON mocked response and a
parser that rejects it. -/
theorem spec_species_parse_witness :
    (fun _ => Except.error { message := "Unexpected token" } :
        String → Except JsError SpeciesData) (cleanupJsonStr "not json") =
      Except.error { message := "Unexpected token" } ∧
    generateSpeciesProfile "not json"
        (fun _ => Except.error { message := "Unexpected token" }) "蝴蝶 (butterflies)" =
      Except.ok (SpeciesContent.parseError
        ("資料解析錯誤，可能因為 API 回傳格式不符。請再試一次。" ++ "Unexpected token")) :=
  ⟨rfl,
    (spec_species_parse "not json" (fun _ => Except.error { message := "Unexpected token" })
      "蝴蝶 (butterflies)").2.1 { message := "Unexpected token" } rfl⟩
